import Mathlib

/-!
Verification development for the LegalAide repository: a shallow embedding of
the persisted SQL schema (migrations for the sync module and the init schema),
the client-visible TypeScript shapes (frontend types and API client), and the
staged sync / retrieval operations, together with theorems settling the stated
properties of the system.
-/

namespace LegalAide

/- ===== Embedding of the SQL schema (sync-module DDL and init DDL) ===== -/

/-- SQL column types appearing in the migrations. -/
inductive SqlTy where
  | bigserial
  | bigint
  | text
  | int
  | date
  | timestamptz
  | vector (dim : Nat)
deriving DecidableEq, Repr

/-- One column of a CREATE TABLE statement: name, type, NOT NULL flag,
UNIQUE (or PRIMARY KEY) flag, and the value list of a CHECK ... IN constraint
when present. -/
structure SqlColumn where
  name : String
  ty : SqlTy
  notNull : Bool
  uniq : Bool
  enumCheck : Option (List String)
deriving DecidableEq, Repr

/-- A plain nullable column with no constraints. -/
def col (n : String) (t : SqlTy) : SqlColumn := ⟨n, t, false, false, none⟩

/-- The sync_jobs table, transcribed column by column from the sync-module DDL.
It records per-run counters and an optional year range; note its column list. -/
def sync_jobs : List SqlColumn :=
  [⟨"id", .bigserial, true, true, none⟩,
   col "started_at" .timestamptz,
   col "completed_at" .timestamptz,
   ⟨"status", .text, true, false, some ["running", "completed", "failed"]⟩,
   col "total_checked" .int,
   col "new_found" .int,
   col "downloaded" .int,
   col "failed" .int,
   col "error_message" .text,
   col "year_from" .int,
   col "year_to" .int]

/-- The pending_decisions staging table, transcribed from the sync-module DDL.
doc_id is the unique external document id (TEXT NOT NULL UNIQUE). -/
def pending_decisions : List SqlColumn :=
  [⟨"id", .bigserial, true, true, none⟩,
   col "sync_job_id" .bigint,
   ⟨"doc_id", .text, true, true, none⟩,
   col "docket_no" .text,
   col "title" .text,
   col "decision_date" .date,
   col "ponente" .text,
   col "division" .text,
   col "keywords" .text,
   ⟨"elibrary_url", .text, true, false, none⟩,
   col "pdf_path" .text,
   ⟨"status", .text, true, false,
     some ["pending", "downloading", "downloaded", "ingesting", "ingested", "failed"]⟩,
   col "error_message" .text,
   col "created_at" .timestamptz,
   col "updated_at" .timestamptz]

/-- The cases table from the init DDL. -/
def cases : List SqlColumn :=
  [⟨"id", .bigserial, true, true, none⟩,
   col "case_number" .text,
   col "title" .text,
   col "court" .text,
   col "promulgation_date" .date,
   col "full_text" .text,
   col "source_file" .text,
   col "created_at" .timestamptz]

/-- The case_chunks table from the init DDL: the embedding column is declared
VECTOR(1536). -/
def case_chunks : List SqlColumn :=
  [⟨"id", .bigserial, true, true, none⟩,
   col "case_id" .bigint,
   col "section_type" .text,
   col "chunk_index" .int,
   col "chunk_text" .text,
   col "token_count" .int,
   col "embedding" (.vector 1536),
   col "created_at" .timestamptz]

/-- A CREATE INDEX statement: name, table, column list, access method and
operator class (when given). -/
structure SqlIndex where
  name : String
  table : String
  columns : List String
  method : String
  opclass : Option String
deriving DecidableEq, Repr

/-- The vector index from the init DDL: ivfflat over case_chunks.embedding
using vector_cosine_ops. -/
def case_chunks_embedding_ivfflat : SqlIndex :=
  ⟨"case_chunks_embedding_ivfflat", "case_chunks", ["embedding"], "ivfflat",
   some "vector_cosine_ops"⟩

/-- The type-name declared for a column by the schema (looked up by name). -/
def columnTy (cols : List SqlColumn) (n : String) : Option SqlTy :=
  (cols.find? (fun c => c.name = n)).map SqlColumn.ty

/-- The CHECK-constraint value list of the status column of a table. -/
def statusEnumOf (cols : List SqlColumn) : List String :=
  match cols.find? (fun c => c.name = "status") with
  | some c => c.enumCheck.getD []
  | none => []

/-- Dimension of the vector column named n, when it is a vector column. -/
def vectorDimOf (cols : List SqlColumn) (n : String) : Option Nat :=
  match columnTy cols n with
  | some (.vector d) => some d
  | _ => none

/- ===== Embedding of the client-visible TypeScript shapes ===== -/

/-- TypeScript field types appearing in the frontend type declarations. -/
inductive TsTy where
  | num
  | str
  | orNull (t : TsTy)
  | enumOf (vals : List String)
  | arrOf (shape : String)
  | objOf (shape : String)
deriving DecidableEq, Repr

/-- One field of a TypeScript interface. -/
structure TsField where
  name : String
  ty : TsTy
  optional : Bool
deriving DecidableEq, Repr

/-- A required field. -/
def fld (n : String) (t : TsTy) : TsField := ⟨n, t, false⟩

/-- The client-visible SyncJob interface, transcribed from the frontend sync
types: it carries job_type with the three sync kinds. -/
def SyncJobClient : List TsField :=
  [fld "id" .num,
   fld "job_type" (.enumOf ["check", "download", "ingest"]),
   fld "status" (.enumOf ["running", "completed", "failed"]),
   fld "year_from" (.orNull .num),
   fld "year_to" (.orNull .num),
   fld "max_per_month" (.orNull .num),
   fld "new_found" (.orNull .num),
   fld "total_checked" (.orNull .num),
   fld "downloaded" (.orNull .num),
   fld "ingested" (.orNull .num),
   fld "failed_count" (.orNull .num),
   fld "error_message" (.orNull .str),
   fld "started_at" .str,
   fld "completed_at" (.orNull .str)]

/-- The ChunkResult interface from the frontend types: chunk data annotated
with the owning case metadata and a distance. -/
def ChunkResultShape : List TsField :=
  [fld "chunk_id" .num,
   fld "case_id" .num,
   fld "section_type" (.orNull .str),
   fld "chunk_index" .num,
   fld "chunk_text" .str,
   fld "token_count" .num,
   fld "case_number" (.orNull .str),
   fld "title" (.orNull .str),
   fld "promulgation_date" (.orNull .str),
   fld "court" (.orNull .str),
   fld "distance" .num]

/-- CheckResponse from the frontend sync types. -/
def CheckResponseShape : List TsField :=
  [fld "new_found" .num, fld "total_checked" .num, fld "job_id" .num]

/-- DownloadResponse from the frontend sync types. -/
def DownloadResponseShape : List TsField :=
  [fld "downloaded" .num, fld "failed" .num, fld "job_id" .num]

/-- IngestResponse from the frontend sync types. -/
def IngestResponseShape : List TsField :=
  [fld "ingested" .num, fld "failed" .num, fld "job_id" .num]

/-- The stats object of SyncStatusResponse: one count per staging status. -/
def SyncStatsShape : List TsField :=
  [fld "pending" .num, fld "downloading" .num, fld "downloaded" .num,
   fld "ingesting" .num, fld "ingested" .num, fld "failed" .num]

/-- SyncStatusResponse from the frontend sync types. -/
def SyncStatusResponseShape : List TsField :=
  [fld "stats" (.objOf "SyncStats"), fld "recent_jobs" (.arrOf "SyncJob")]

/-- JSON body keys sent by checkNewDecisions in the API client. -/
def checkRequestKeys : List String := ["year_from", "year_to", "max_per_month"]

/-- JSON body keys sent by ingestPendingDecisions in the API client (limit may
be undefined). -/
def ingestRequestKeys : List String := ["limit"]

/-- A column that would represent the sync-job kind: named kind or job_type,
or constrained to exactly the three sync kinds. -/
def isKindColumn (c : SqlColumn) : Bool :=
  c.name = "kind" || c.name = "job_type" ||
    c.enumCheck = some ["check", "download", "ingest"]

/- ===== Embedding of the frontend API client and App state ===== -/

/-- A JavaScript value of declared type string or null or undefined, such as a
SearchFilters field. -/
inductive JsStr where
  | undefined
  | null
  | str (s : String)
deriving DecidableEq, Repr

/-- JavaScript truthiness restricted to JsStr values: null and undefined are
falsy, and among strings exactly the empty string is falsy. -/
def jsTruthy : JsStr → Bool
  | .str s => !(s = "")
  | _ => false

/-- The JavaScript expression v OR-ELSE undefined, as written field by field
in normalizeFilters. -/
def orUndefined (v : JsStr) : JsStr := if jsTruthy v then v else .undefined

/-- The SearchFilters record of the frontend types (all four fields may be
absent, null, or a string). -/
structure SearchFilters where
  court : JsStr
  date_from : JsStr
  date_to : JsStr
  case_number : JsStr
deriving DecidableEq, Repr

/-- normalizeFilters from the API client: each field is replaced by
field OR-ELSE undefined. -/
def normalizeFilters (f : SearchFilters) : SearchFilters :=
  ⟨orUndefined f.court, orUndefined f.date_from,
   orUndefined f.date_to, orUndefined f.case_number⟩

/-- A field value is dropped by normalization exactly when it is undefined,
null, or the empty string. -/
def emptyish (v : JsStr) : Prop := v = .undefined ∨ v = .null ∨ v = .str ""

/-- The observable parts of an HTTP response consumed by the request helper. -/
structure HttpResponse where
  ok : Bool
  status : Nat
  statusText : String
  bodyText : String
deriving DecidableEq, Repr

/-- Outcome of the shared request helper: it throws an Error with a message,
resolves to the empty object, or hands the body text to the JSON parser. -/
inductive RequestOutcome where
  | thrown (message : String)
  | emptyObject
  | parseJsonBody (body : String)
deriving DecidableEq, Repr

/-- The JavaScript expression a OR-ELSE b on strings (empty string is falsy),
as in: text OR-ELSE response.statusText. -/
def jsOrStr (a b : String) : String := if a = "" then b else a

/-- The shared request helper from the API client: on a non-ok response it
throws an Error carrying the body text (or the status text when the body is
empty); on 204 it resolves to the empty object; otherwise it parses the JSON
body. -/
def request (r : HttpResponse) : RequestOutcome :=
  if !r.ok then .thrown (jsOrStr r.bodyText r.statusText)
  else if r.status = 204 then .emptyObject
  else .parseJsonBody r.bodyText

/-- An entry of the activity feed, from the frontend types. -/
structure ActivityItem where
  id : String
  type : String
  description : String
  timestamp : String
deriving DecidableEq, Repr

/-- JavaScript Array.prototype.slice for non-negative start and stop. -/
def jsSlice {α : Type} (l : List α) (start stop : Nat) : List α :=
  (l.drop start).take (stop - start)

/-- recordActivity from App.tsx: prepend the new entry to the previous list
and keep the first 40 entries. -/
def recordActivity (entry : ActivityItem) (prev : List ActivityItem) :
    List ActivityItem :=
  jsSlice (entry :: prev) 0 40

/- ===== Staging store model: the check operation (C2) ===== -/

/-- A decision reported by the Source Connector for a year/month range. -/
structure DiscoveredDecision where
  doc_id : String
  title : Option String
  url : String
deriving DecidableEq, Repr

/-- A row of the pending_decisions staging table (the fields the dedup
invariant concerns). -/
structure PendingRow where
  doc_id : String
  title : Option String
  elibrary_url : String
  status : String
deriving DecidableEq, Repr

/-- The staged row created for a newly discovered decision. -/
def stageRow (d : DiscoveredDecision) : PendingRow :=
  ⟨d.doc_id, d.title, d.url, "pending"⟩

/-- Modelled from the spec: the backend check operation is not under src/
(only the pending_decisions DDL and the frontend client are); per the spec it
inserts new rows as pending with insert-if-absent semantics enforced by the
unique external-id key doc_id. -/
def insertIfAbsent (t : List PendingRow) (d : DiscoveredDecision) :
    List PendingRow :=
  if d.doc_id ∈ t.map PendingRow.doc_id then t else t ++ [stageRow d]

/-- Modelled from the spec: one check run over a range stages every discovered
decision not already present by external id. -/
def runCheck (t : List PendingRow) (discovered : List DiscoveredDecision) :
    List PendingRow :=
  discovered.foldl insertIfAbsent t

/-- The number of staging rows carrying a given external document id. -/
def rowsFor (t : List PendingRow) (x : String) : Nat :=
  (t.map PendingRow.doc_id).count x

/-- The UNIQUE constraint on pending_decisions.doc_id, as a property of a
table state. -/
def docIdsUnique (t : List PendingRow) : Prop :=
  (t.map PendingRow.doc_id).Nodup

/- ===== Chunk index assignment (C3) ===== -/

/-- A chunk emitted by the chunking engine before persistence: its section
tag (when the section strategy produced it) and its text. -/
structure EmittedChunk where
  section_type : Option String
  chunk_text : String
deriving DecidableEq, Repr

/-- A row of the case_chunks table as written at ingestion. -/
structure CaseChunkRow where
  case_id : Nat
  section_type : Option String
  chunk_index : Nat
  chunk_text : String
deriving DecidableEq, Repr

/-- Modelled from the spec: the chunk-persistence step of ingestion is not
under src/ (only the case_chunks DDL is); per the spec, chunk indices are
assigned in the final emission order, strictly increasing from zero per case,
regardless of which strategy produced each chunk. -/
def chunkRows (caseId : Nat) (emitted : List EmittedChunk) :
    List CaseChunkRow :=
  emitted.enum.map (fun p => ⟨caseId, p.2.section_type, p.1, p.2.chunk_text⟩)

/- ===== Configuration and startup dimension check (C4) ===== -/

/-- The environment configuration surface relevant to embeddings, from the
README: EMBEDDING_DIM is an integer environment setting. -/
structure AppConfig where
  embedding_dim : Nat
deriving DecidableEq, Repr

/-- Modelled from the spec: the backend startup validation is not under src/;
per the spec, a mismatch between the configured dimension and the index's
configured dimension is a hard configuration error detected at startup. -/
def startupDimCheck (cfg : AppConfig) : Except String Unit :=
  if vectorDimOf case_chunks "embedding" = some cfg.embedding_dim then
    Except.ok ()
  else
    Except.error "EMBEDDING_DIM does not match the vector index dimension"

/- ===== Vector search model (C5) ===== -/

/-- A stored chunk row together with its embedding, as read by search. -/
structure StoredChunk where
  chunk_id : Nat
  case_id : Nat
  section_type : Option String
  chunk_index : Nat
  chunk_text : String
  token_count : Nat
  embedding : List ℚ
deriving DecidableEq, Repr

/-- A row of the cases table, as joined by search for denormalized output. -/
structure CaseRow where
  id : Nat
  case_number : Option String
  title : Option String
  court : Option String
  promulgation_date : Option String
deriving DecidableEq, Repr

/-- A chunk search result, mirroring the ChunkResult client shape. -/
structure ChunkResult where
  chunk_id : Nat
  case_id : Nat
  section_type : Option String
  chunk_index : Nat
  chunk_text : String
  token_count : Nat
  case_number : Option String
  title : Option String
  promulgation_date : Option String
  court : Option String
  distance : ℚ
deriving DecidableEq, Repr

/-- Point lookup of the owning case of a chunk. -/
def findCase (cs : List CaseRow) (cid : Nat) : Option CaseRow :=
  cs.find? (fun c => c.id = cid)

/-- Annotate one stored chunk with its distance and the owning case's
denormalized metadata (title, court, date, case number). -/
def annotate (cs : List CaseRow) (d : ℚ) (ch : StoredChunk) : ChunkResult :=
  let c := findCase cs ch.case_id
  ⟨ch.chunk_id, ch.case_id, ch.section_type, ch.chunk_index, ch.chunk_text,
   ch.token_count, c.bind CaseRow.case_number, c.bind CaseRow.title,
   c.bind CaseRow.promulgation_date, c.bind CaseRow.court, d⟩

/-- Modelled from the spec: the nearest-neighbor search of the Vector Index
is not under src/ (only the ivfflat index DDL and the ChunkResult client shape
are); per the spec it returns chunk records ordered by ascending distance,
annotated with distance and owning-case metadata, up to the result limit.
The metric argument abstracts the cosine distance computed by the index. -/
def annSearch (metric : List ℚ → List ℚ → ℚ) (chunks : List StoredChunk)
    (cs : List CaseRow) (q : List ℚ) (limit : Nat) : List ChunkResult :=
  ((chunks.map (fun ch => annotate cs (metric q ch.embedding) ch)).mergeSort
    (fun a b => decide (a.distance ≤ b.distance))).take limit

/- ===== Ask operation model (C6) ===== -/

/-- The Ask response shape, mirroring the AskResponse client shape. -/
structure AskResponse where
  answer : String
  supporting_chunks : List ChunkResult
  case_ids : List Nat
deriving DecidableEq, Repr

/-- One Ask execution, recording whether the generation capability was
invoked and the exact context it was given when so. -/
structure AskRun where
  response : AskResponse
  generationCalled : Bool
  contextGiven : Option String
deriving DecidableEq, Repr

/-- The grounded insufficient-information answer returned without invoking
generation. -/
def insufficientAnswer : String :=
  "Insufficient information: no relevant case text was retrieved for this question."

/-- The ordered context block assembled from the retrieved chunks, each tagged
with its source case citation. -/
def buildContext (retrieved : List ChunkResult) : String :=
  String.intercalate "\n\n"
    (retrieved.map (fun r =>
      "[" ++ (r.case_number.getD (toString r.case_id)) ++ "] " ++ r.chunk_text))

/-- Modelled from the spec: the Ask operation of the Retrieval and Answering
Service is not under src/ (only the AskResponse client shape is); per the spec,
when retrieval returns zero chunks Ask returns an insufficient-grounding
response and never invokes generation, and generation, when invoked, is given
only the context assembled from the retrieved chunks. -/
def askRun (generate : String → String → String) (question : String)
    (retrieved : List ChunkResult) : AskRun :=
  if retrieved.isEmpty then
    ⟨⟨insufficientAnswer, [], []⟩, false, none⟩
  else
    let ctx := buildContext retrieved
    ⟨⟨generate question ctx, retrieved,
      (retrieved.map ChunkResult.case_id).dedup⟩, true, some ctx⟩

/- ===================== Theorems ===================== -/

/-- C1 (counterexample): the persisted sync_jobs schema carries no kind
attribute at all — no column is named kind or job_type and none is constrained
to the three sync kinds — although the client-visible SyncJob shape does carry
job_type; so the schema does not represent the kind, refuting the claim that
both artifacts represent it. -/
theorem sync_jobs_schema_lacks_kind :
    sync_jobs.all (fun c => !isKindColumn c) = true ∧
    (SyncJobClient.map TsField.name).contains "job_type" = true := by
  decide

/-- C1 (amended): the client-visible SyncJob shape carries a job_type
attribute valued in check, download, ingest, but the persisted sync_jobs
schema has exactly the eleven listed columns and no kind or job_type column,
so the one-running-job-per-kind invariant is not representable (and not
enforced) in the persisted schema. -/
theorem syncjob_kind_client_shape_only :
    SyncJobClient.find? (fun f => f.name = "job_type") =
      some ⟨"job_type", .enumOf ["check", "download", "ingest"], false⟩ ∧
    sync_jobs.map SqlColumn.name =
      ["id", "started_at", "completed_at", "status", "total_checked",
       "new_found", "downloaded", "failed", "error_message", "year_from",
       "year_to"] ∧
    (sync_jobs.map SqlColumn.name).contains "kind" = false ∧
    (sync_jobs.map SqlColumn.name).contains "job_type" = false := by
  decide

/-- C7: the sync service surface has exactly the claimed request and response
shapes — check returns new_found, total_checked, job_id; download returns
downloaded, failed, job_id; ingest returns ingested, failed, job_id; the check
request carries year_from, year_to, max_per_month and the ingest request an
optional limit; and status returns one aggregate count per staging status of
the pending_decisions schema plus the recent job history. -/
theorem sync_service_surface_shapes :
    CheckResponseShape.map TsField.name =
      ["new_found", "total_checked", "job_id"] ∧
    DownloadResponseShape.map TsField.name = ["downloaded", "failed", "job_id"] ∧
    IngestResponseShape.map TsField.name = ["ingested", "failed", "job_id"] ∧
    checkRequestKeys = ["year_from", "year_to", "max_per_month"] ∧
    ingestRequestKeys = ["limit"] ∧
    SyncStatusResponseShape.map TsField.name = ["stats", "recent_jobs"] ∧
    SyncStatsShape.map TsField.name = statusEnumOf pending_decisions := by
  decide

/-- Normalization maps a field to undefined exactly when it is undefined,
null, or the empty string. -/
theorem orUndefined_eq_undef_iff (v : JsStr) :
    orUndefined v = JsStr.undefined ↔ emptyish v := by
  cases v with
  | undefined => simp [orUndefined, jsTruthy, emptyish]
  | null => simp [orUndefined, jsTruthy, emptyish]
  | str s =>
    by_cases h : s = "" <;> simp [orUndefined, jsTruthy, emptyish, h]

/-- Normalization either drops a field or leaves its value unchanged. -/
theorem orUndefined_eq_self_or_undef (v : JsStr) :
    orUndefined v = JsStr.undefined ∨ orUndefined v = v := by
  cases h : jsTruthy v <;> simp [orUndefined, h]

/-- C8: for every SearchFilters value, normalizeFilters maps each of the four
filter fields to undefined exactly when the field is absent, null, or the
empty string, and otherwise leaves the value unchanged. -/
theorem normalizeFilters_spec (f : SearchFilters) :
    ((normalizeFilters f).court = JsStr.undefined ↔ emptyish f.court) ∧
    ((normalizeFilters f).court = JsStr.undefined ∨
      (normalizeFilters f).court = f.court) ∧
    ((normalizeFilters f).date_from = JsStr.undefined ↔ emptyish f.date_from) ∧
    ((normalizeFilters f).date_from = JsStr.undefined ∨
      (normalizeFilters f).date_from = f.date_from) ∧
    ((normalizeFilters f).date_to = JsStr.undefined ↔ emptyish f.date_to) ∧
    ((normalizeFilters f).date_to = JsStr.undefined ∨
      (normalizeFilters f).date_to = f.date_to) ∧
    ((normalizeFilters f).case_number = JsStr.undefined ↔ emptyish f.case_number) ∧
    ((normalizeFilters f).case_number = JsStr.undefined ∨
      (normalizeFilters f).case_number = f.case_number) :=
  ⟨orUndefined_eq_undef_iff f.court, orUndefined_eq_self_or_undef f.court,
   orUndefined_eq_undef_iff f.date_from, orUndefined_eq_self_or_undef f.date_from,
   orUndefined_eq_undef_iff f.date_to, orUndefined_eq_self_or_undef f.date_to,
   orUndefined_eq_undef_iff f.case_number,
   orUndefined_eq_self_or_undef f.case_number⟩

/-- C9: the request helper throws exactly on a non-ok response, carrying the
body text or, when the body is empty, the status text; an ok 204 response
resolves to the empty object; any other ok response hands its body to the
JSON parser and the helper itself never throws. -/
theorem request_spec (r : HttpResponse) :
    ((∃ m, request r = RequestOutcome.thrown m) ↔ r.ok = false) ∧
    (r.ok = false →
      request r =
        RequestOutcome.thrown
          (if r.bodyText = "" then r.statusText else r.bodyText)) ∧
    (r.ok = true → r.status = 204 → request r = RequestOutcome.emptyObject) ∧
    (r.ok = true → r.status ≠ 204 →
      request r = RequestOutcome.parseJsonBody r.bodyText) := by
  cases hok : r.ok with
  | false =>
    refine ⟨⟨fun _ => rfl, fun _ => ⟨jsOrStr r.bodyText r.statusText, ?_⟩⟩,
      fun _ => ?_, fun h => absurd h (by simp), fun h => absurd h (by simp)⟩
    · simp [request, hok]
    · simp [request, hok, jsOrStr]
  | true =>
    by_cases h204 : r.status = 204
    · refine ⟨⟨?_, fun h => absurd h (by simp [hok])⟩,
        fun h => absurd h (by simp [hok]), fun _ _ => ?_,
        fun _ hne => absurd h204 hne⟩
      · rintro ⟨m, hm⟩
        simp [request, hok, h204] at hm
      · simp [request, hok, h204]
    · refine ⟨⟨?_, fun h => absurd h (by simp [hok])⟩,
        fun h => absurd h (by simp [hok]),
        fun _ he => absurd he h204, fun _ _ => ?_⟩
      · rintro ⟨m, hm⟩
        simp [request, hok, h204] at hm
      · simp [request, hok, h204]

/-- C9 witness: concrete responses exercising every branch of the helper. -/
theorem request_spec_witness :
    request ⟨false, 500, "Internal Server Error", "boom"⟩ =
      RequestOutcome.thrown "boom" ∧
    request ⟨false, 502, "Bad Gateway", ""⟩ =
      RequestOutcome.thrown "Bad Gateway" ∧
    request ⟨true, 204, "No Content", ""⟩ = RequestOutcome.emptyObject ∧
    request ⟨true, 200, "OK", "[1]"⟩ = RequestOutcome.parseJsonBody "[1]" := by
  refine ⟨?_, ?_, ?_, ?_⟩
  · have h := (request_spec ⟨false, 500, "Internal Server Error", "boom"⟩).2.1 rfl
    simpa using h
  · have h := (request_spec ⟨false, 502, "Bad Gateway", ""⟩).2.1 rfl
    simpa using h
  · exact (request_spec ⟨true, 204, "No Content", ""⟩).2.2.1 rfl rfl
  · exact (request_spec ⟨true, 200, "OK", "[1]"⟩).2.2.2 rfl (by decide)

/-- C10: after every call to recordActivity the activity list is the new entry
followed by the first 39 previous entries, hence holds at most 40 entries with
the newest first, and the kept previous entries are an unreordered prefix of
the previous list (only the tail beyond the bound is dropped). -/
theorem recordActivity_spec (entry : ActivityItem) (prev : List ActivityItem) :
    recordActivity entry prev = entry :: prev.take 39 ∧
    (recordActivity entry prev).length ≤ 40 ∧
    (recordActivity entry prev).head? = some entry ∧
    ∃ dropped, prev = prev.take 39 ++ dropped := by
  have h : recordActivity entry prev = entry :: prev.take 39 := by
    simp [recordActivity, jsSlice]
  refine ⟨h, ?_, ?_, ⟨prev.drop 39, (List.take_append_drop 39 prev).symm⟩⟩
  · rw [h]
    have := List.length_take_le 39 prev
    simp only [List.length_cons]
    omega
  · rw [h]
    rfl

/-- Inserting a discovered decision appends its external id only when it is
not present yet. -/
theorem mapDocId_insertIfAbsent (t : List PendingRow) (d : DiscoveredDecision) :
    (insertIfAbsent t d).map PendingRow.doc_id =
      if d.doc_id ∈ t.map PendingRow.doc_id then t.map PendingRow.doc_id
      else t.map PendingRow.doc_id ++ [d.doc_id] := by
  unfold insertIfAbsent
  split <;> simp [stageRow]

/-- External-id membership after an insert-if-absent step. -/
theorem mem_insertIfAbsent (x : String) (t : List PendingRow)
    (d : DiscoveredDecision) :
    x ∈ (insertIfAbsent t d).map PendingRow.doc_id ↔
      x ∈ t.map PendingRow.doc_id ∨ x = d.doc_id := by
  rw [mapDocId_insertIfAbsent]
  split
  · rename_i h
    constructor
    · exact Or.inl
    · rintro (hx | rfl)
      · exact hx
      · exact h
  · simp

/-- Insert-if-absent preserves the uniqueness of external ids. -/
theorem docIdsUnique_insertIfAbsent (t : List PendingRow)
    (d : DiscoveredDecision) (h : docIdsUnique t) :
    docIdsUnique (insertIfAbsent t d) := by
  unfold docIdsUnique at h ⊢
  rw [mapDocId_insertIfAbsent]
  split
  · exact h
  · rename_i hni
    simp [List.nodup_append, h, hni]

/-- External-id membership after a whole check run. -/
theorem mem_runCheck (x : String) (ds : List DiscoveredDecision) :
    ∀ t, x ∈ (runCheck t ds).map PendingRow.doc_id ↔
      x ∈ t.map PendingRow.doc_id ∨ x ∈ ds.map DiscoveredDecision.doc_id := by
  induction ds with
  | nil => intro t; simp [runCheck]
  | cons d ds ih =>
    intro t
    have hstep : runCheck t (d :: ds) = runCheck (insertIfAbsent t d) ds := rfl
    rw [hstep, ih, mem_insertIfAbsent]
    simp only [List.map_cons, List.mem_cons]
    tauto

/-- A check run preserves the uniqueness of external ids. -/
theorem docIdsUnique_runCheck (ds : List DiscoveredDecision) :
    ∀ t, docIdsUnique t → docIdsUnique (runCheck t ds) := by
  induction ds with
  | nil => intro t h; exact h
  | cons d ds ih =>
    intro t h
    exact ih _ (docIdsUnique_insertIfAbsent t d h)

/-- C2: check runs preserve the unique-external-id invariant of the staging
table, and a decision discovered by both of two overlapping check runs over an
initially empty table yields exactly one PendingDecision row for its external
id — re-running check never creates a duplicate row. -/
theorem check_dedup_invariant :
    (∀ t ds, docIdsUnique t → docIdsUnique (runCheck t ds)) ∧
    (∀ ds1 ds2 x, x ∈ ds1.map DiscoveredDecision.doc_id →
      x ∈ ds2.map DiscoveredDecision.doc_id →
      rowsFor (runCheck (runCheck [] ds1) ds2) x = 1) := by
  constructor
  · intro t ds h
    exact docIdsUnique_runCheck ds t h
  · intro ds1 ds2 x h1 h2
    have hnil : docIdsUnique ([] : List PendingRow) := by
      simp [docIdsUnique]
    have hnd : docIdsUnique (runCheck (runCheck [] ds1) ds2) :=
      docIdsUnique_runCheck ds2 _ (docIdsUnique_runCheck ds1 [] hnil)
    have hmem : x ∈ (runCheck (runCheck [] ds1) ds2).map PendingRow.doc_id := by
      rw [mem_runCheck]
      exact Or.inr h2
    exact List.count_eq_one_of_mem hnd hmem

/-- C2 witness: two overlapping concrete check runs both discovering GR-1
leave exactly one staged row for GR-1, and a concrete run preserves
uniqueness. -/
theorem check_dedup_invariant_witness :
    rowsFor
      (runCheck
        (runCheck [] [⟨"GR-1", none, "u1"⟩, ⟨"GR-2", none, "u2"⟩])
        [⟨"GR-1", none, "u1"⟩, ⟨"GR-3", none, "u3"⟩]) "GR-1" = 1 ∧
    docIdsUnique (runCheck [] [⟨"GR-1", none, "u1"⟩, ⟨"GR-1", none, "u1"⟩]) := by
  constructor
  · exact check_dedup_invariant.2
      [⟨"GR-1", none, "u1"⟩, ⟨"GR-2", none, "u2"⟩]
      [⟨"GR-1", none, "u1"⟩, ⟨"GR-3", none, "u3"⟩] "GR-1"
      (by decide) (by decide)
  · exact check_dedup_invariant.1 [] [⟨"GR-1", none, "u1"⟩, ⟨"GR-1", none, "u1"⟩]
      (by simp [docIdsUnique])

/-- C3: for every ingested case with N emitted chunks, the chunk_index values
of its written CaseChunk rows form exactly the sequence 0..N-1 — no gaps and
no duplicates — in the final emission order, regardless of which chunking
strategy produced each chunk (the emitted list is arbitrary). -/
theorem chunk_indices_gapless (caseId : Nat) (emitted : List EmittedChunk) :
    (chunkRows caseId emitted).map CaseChunkRow.chunk_index =
      List.range emitted.length ∧
    ((chunkRows caseId emitted).map CaseChunkRow.chunk_index).Nodup ∧
    (chunkRows caseId emitted).length = emitted.length := by
  have h : (chunkRows caseId emitted).map CaseChunkRow.chunk_index =
      List.range emitted.length := by
    have hcomp : (chunkRows caseId emitted).map CaseChunkRow.chunk_index =
        emitted.enum.map Prod.fst := by
      simp only [chunkRows, List.map_map]
      rfl
    rw [hcomp, List.enum_map_fst]
  refine ⟨h, ?_, by simp [chunkRows]⟩
  rw [h]
  exact List.nodup_range _

/-- C4: the case_chunks embedding column and the cosine ivfflat vector index
are declared on the same column with the fixed dimension 1536, and the startup
dimension check accepts a configuration exactly when its EMBEDDING_DIM equals
that shared schema dimension — a mismatch is a hard startup error. -/
theorem embedding_dim_startup_check (cfg : AppConfig) :
    vectorDimOf case_chunks "embedding" = some 1536 ∧
    case_chunks_embedding_ivfflat.table = "case_chunks" ∧
    case_chunks_embedding_ivfflat.columns = ["embedding"] ∧
    (startupDimCheck cfg = Except.ok () ↔ cfg.embedding_dim = 1536) := by
  have hdim : vectorDimOf case_chunks "embedding" = some 1536 := by decide
  refine ⟨hdim, rfl, rfl, ?_⟩
  unfold startupDimCheck
  rw [hdim]
  constructor
  · intro hok
    by_contra hc
    have hne : ¬ (some 1536 = some cfg.embedding_dim) := by
      intro he
      injection he with he2
      exact hc he2.symm
    rw [if_neg hne] at hok
    cases hok
  · intro hc
    rw [if_pos (by rw [hc])]

/-- C5: the vector index is an approximate ivfflat index tuned for cosine
distance, and for every query the search returns chunk records ordered by
ascending distance, each being a stored chunk annotated with its distance and
the owning case's denormalized metadata. -/
theorem search_results_sorted_annotated (metric : List ℚ → List ℚ → ℚ)
    (chunks : List StoredChunk) (cs : List CaseRow) (q : List ℚ)
    (limit : Nat) :
    case_chunks_embedding_ivfflat.method = "ivfflat" ∧
    case_chunks_embedding_ivfflat.opclass = some "vector_cosine_ops" ∧
    (annSearch metric chunks cs q limit).Pairwise
      (fun a b => a.distance ≤ b.distance) ∧
    ∀ r ∈ annSearch metric chunks cs q limit,
      ∃ ch ∈ chunks, r = annotate cs (metric q ch.embedding) ch := by
  refine ⟨rfl, rfl, ?_, ?_⟩
  · have htrans : ∀ a b c : ChunkResult,
        decide (a.distance ≤ b.distance) = true →
        decide (b.distance ≤ c.distance) = true →
        decide (a.distance ≤ c.distance) = true := by
      intro a b c hab hbc
      exact decide_eq_true
        (le_trans (of_decide_eq_true hab) (of_decide_eq_true hbc))
    have htot : ∀ a b : ChunkResult,
        (decide (a.distance ≤ b.distance) ||
          decide (b.distance ≤ a.distance)) = true := by
      intro a b
      rcases le_total a.distance b.distance with h | h
      · simp [h]
      · simp [h]
    have hs := List.sorted_mergeSort htrans htot
      (chunks.map (fun ch => annotate cs (metric q ch.embedding) ch))
    have hs2 := hs.imp (fun hab => of_decide_eq_true hab)
    exact List.Pairwise.sublist (List.take_sublist limit _) hs2
  · intro r hr
    have hr2 := List.mem_of_mem_take hr
    rw [List.mem_mergeSort, List.mem_map] at hr2
    obtain ⟨ch, hch, heq⟩ := hr2
    exact ⟨ch, hch, heq.symm⟩

/-- C5 witness: a concrete one-chunk search whose single result is exactly
that chunk annotated with its distance and case metadata. -/
theorem search_results_sorted_annotated_witness :
    ∃ ch ∈ ([⟨1, 7, some "ruling", 0, "The Court holds.", 4, [1, 0]⟩] :
        List StoredChunk),
      annotate
        [⟨7, some "GR-100", some "People v. X", some "PH Supreme Court",
          some "2024-05-02"⟩] 0
        ⟨1, 7, some "ruling", 0, "The Court holds.", 4, [1, 0]⟩ =
      annotate
        [⟨7, some "GR-100", some "People v. X", some "PH Supreme Court",
          some "2024-05-02"⟩] 0 ch := by
  have hmem :
      annotate
        [⟨7, some "GR-100", some "People v. X", some "PH Supreme Court",
          some "2024-05-02"⟩] 0
        ⟨1, 7, some "ruling", 0, "The Court holds.", 4, [1, 0]⟩ ∈
      annSearch (fun _ _ => 0)
        [⟨1, 7, some "ruling", 0, "The Court holds.", 4, [1, 0]⟩]
        [⟨7, some "GR-100", some "People v. X", some "PH Supreme Court",
          some "2024-05-02"⟩] [2] 5 := by
    simp [annSearch, List.mergeSort_singleton]
  exact (search_results_sorted_annotated (fun _ _ => 0)
    [⟨1, 7, some "ruling", 0, "The Court holds.", 4, [1, 0]⟩]
    [⟨7, some "GR-100", some "People v. X", some "PH Supreme Court",
      some "2024-05-02"⟩] [2] 5).2.2.2 _ hmem

/-- C6: when retrieval returns zero chunks, Ask returns the
insufficient-grounding response and never invokes the generation capability;
and whenever generation is invoked, retrieval was non-empty and generation is
given exactly the context assembled from the retrieved chunks. -/
theorem ask_insufficient_grounding (generate : String → String → String)
    (question : String) (retrieved : List ChunkResult) :
    (retrieved = [] →
      askRun generate question retrieved =
        ⟨⟨insufficientAnswer, [], []⟩, false, none⟩) ∧
    ((askRun generate question retrieved).generationCalled = true →
      retrieved ≠ [] ∧
      (askRun generate question retrieved).contextGiven =
        some (buildContext retrieved) ∧
      (askRun generate question retrieved).response.answer =
        generate question (buildContext retrieved)) := by
  constructor
  · rintro rfl
    rfl
  · intro hg
    cases retrieved with
    | nil => simp [askRun] at hg
    | cons a l =>
      refine ⟨by simp, ?_, ?_⟩ <;> simp [askRun]

/-- C6 witness: a concrete Ask with empty retrieval returns the
insufficient-grounding response without generation, and a concrete Ask with
one retrieved chunk hands generation exactly the assembled context. -/
theorem ask_insufficient_grounding_witness :
    askRun (fun _ _ => "generated") "When is a warrantless arrest valid?" [] =
      ⟨⟨insufficientAnswer, [], []⟩, false, none⟩ ∧
    (askRun (fun _ c => "ANSWER FROM " ++ c) "Q"
        [⟨1, 7, some "ruling", 0, "The Court holds.", 4, some "GR-100",
          some "People v. X", some "2024-05-02", some "PH Supreme Court",
          0⟩]).contextGiven =
      some (buildContext
        [⟨1, 7, some "ruling", 0, "The Court holds.", 4, some "GR-100",
          some "People v. X", some "2024-05-02", some "PH Supreme Court",
          0⟩]) := by
  constructor
  · exact (ask_insufficient_grounding (fun _ _ => "generated")
      "When is a warrantless arrest valid?" []).1 rfl
  · exact ((ask_insufficient_grounding (fun _ c => "ANSWER FROM " ++ c) "Q"
      [⟨1, 7, some "ruling", 0, "The Court holds.", 4, some "GR-100",
        some "People v. X", some "2024-05-02", some "PH Supreme Court",
        0⟩]).2 rfl).2.1

end LegalAide
